import Mathlib

/-!
Shallow embedding of `cert_verifier/connectors.py` (blockcerts transaction
lookup connectors and issuer-info resolution) and proofs about it.

JSON documents are modelled by the inductive `JValue`; JSON numbers are
modelled as integers (the provider APIs in scope return integral satoshi
amounts, block numbers and timestamps).  Python exceptions are modelled by
the inductive `PyError`, and fallible Python code by `Except PyError`.
The network is modelled as a pure map from request URL to an HTTP status
code paired with the parsed JSON body.
-/

/-- Model of a parsed JSON document (the values `requests.Response.json()`
produces), with numbers restricted to integers. -/
inductive JValue where
  | null
  | bool (b : Bool)
  | num (n : Int)
  | str (s : String)
  | arr (xs : List JValue)
  | obj (fields : List (String × JValue))

mutual

/-- Structural equality on JSON values (Python `==` on parsed JSON). -/
def JValue.beq : JValue → JValue → Bool
  | .null, .null => true
  | .bool a, .bool b => a == b
  | .num a, .num b => a == b
  | .str a, .str b => a == b
  | .arr xs, .arr ys => JValue.beqList xs ys
  | .obj xs, .obj ys => JValue.beqFields xs ys
  | _, _ => false

/-- Elementwise equality of JSON arrays. -/
def JValue.beqList : List JValue → List JValue → Bool
  | [], [] => true
  | x :: xs, y :: ys => JValue.beq x y && JValue.beqList xs ys
  | _, _ => false

/-- Fieldwise equality of JSON objects. -/
def JValue.beqFields : List (String × JValue) → List (String × JValue) → Bool
  | [], [] => true
  | x :: xs, y :: ys => (x.1 == y.1 && JValue.beq x.2 y.2) && JValue.beqFields xs ys
  | _, _ => false

end

instance : BEq JValue := ⟨JValue.beq⟩

/-- Python exceptions raised by the connectors module.
`InvalidTransactionError` (imported from `cert_verifier.errors`, a plain
exception subclass) is raised both with a message string and, by the
fallback coordinator, with the list of the caught underlying exceptions;
the two payload shapes are the two `invalidTransaction*` constructors.
The remaining constructors model the built-in Python exceptions the
module can raise (`Exception`, `KeyError`, `TypeError`, `ValueError`,
`IndexError`). -/
inductive PyError where
  | invalidTransactionError (msg : String)
  | invalidTransactionErrorList (errs : List PyError)
  | exception (msg : String)
  | keyError (k : String)
  | typeError (msg : String)
  | valueError (msg : String)
  | indexError

/-- Python truthiness (`bool(x)`) of a JSON value: `None`, `False`, `0`,
the empty string, the empty list and the empty dict are falsy. -/
def JValue.isTruthy : JValue → Bool
  | .null => false
  | .bool b => b
  | .num n => n != 0
  | .str s => !s.isEmpty
  | .arr xs => !xs.isEmpty
  | .obj fs => !fs.isEmpty

/-- Python subscription `j[k]` with a string key: dict lookup raising
`KeyError` when absent, `TypeError` on non-dicts. -/
def JValue.subscript (j : JValue) (k : String) : Except PyError JValue :=
  match j with
  | .obj fs =>
    match fs.find? (fun p => p.1 == k) with
    | some p => .ok p.2
    | none => .error (.keyError k)
  | _ => .error (.typeError "object is not subscriptable")

/-- Python subscription `j[n]` with a non-negative integer index. -/
def JValue.index (j : JValue) (n : Nat) : Except PyError JValue :=
  match j with
  | .arr xs =>
    match xs.get? n with
    | some v => .ok v
    | none => .error .indexError
  | .str s =>
    match s.toList.get? n with
    | some c => .ok (.str ⟨[c]⟩)
    | none => .error .indexError
  | _ => .error (.typeError "object is not indexable")

/-- Python `j.get(k, dflt)`: dict lookup with a default, `TypeError`
(`AttributeError` in CPython) when `j` is not a dict. -/
def JValue.dictGet (j : JValue) (k : String) (dflt : JValue) : Except PyError JValue :=
  match j with
  | .obj fs =>
    match fs.find? (fun p => p.1 == k) with
    | some p => .ok p.2
    | none => .ok dflt
  | _ => .error (.typeError "get requires a dict")

/-- Python iteration `for x in j`: lists yield their elements, strings
their characters, dicts their keys; other values are not iterable. -/
def JValue.iterList : JValue → Except PyError (List JValue)
  | .arr xs => .ok xs
  | .str s => .ok (s.toList.map (fun c => .str ⟨[c]⟩))
  | .obj fs => .ok (fs.map (fun p => .str p.1))
  | _ => .error (.typeError "object is not iterable")

/-- Substring test used for Python `needle in haystack` on strings. -/
def strContainsSub (hay needle : List Char) : Bool :=
  match hay with
  | [] => needle.isEmpty
  | _ :: rest => needle.isPrefixOf hay || strContainsSub rest needle

/-- Python membership `k in j` for a string `k`: key membership on dicts,
element membership on lists, substring on strings. -/
def pyContains (j : JValue) (k : String) : Except PyError Bool :=
  match j with
  | .obj fs => .ok (fs.any (fun p => p.1 == k))
  | .arr xs => .ok (xs.any (fun v => JValue.beq v (.str k)))
  | .str s => .ok (strContainsSub s.toList k.toList)
  | _ => .error (.typeError "argument is not iterable")

/-- Value of one decimal digit. -/
def decDigitVal (c : Char) : Option Nat :=
  if ('0' ≤ c && c ≤ '9') then some (c.toNat - '0'.toNat) else none

/-- Accumulating base-10 digit parser. -/
def parseDecDigits : List Char → Nat → Option Nat
  | [], acc => some acc
  | c :: rest, acc =>
    match decDigitVal c with
    | some d => parseDecDigits rest (acc * 10 + d)
    | none => none

/-- Python `int(s)` on a string: an optional sign followed by at least
one decimal digit. -/
def pyIntDec (s : String) : Option Int :=
  match s.toList with
  | [] => none
  | '-' :: rest =>
    match rest with
    | [] => none
    | _ => (parseDecDigits rest 0).map (fun n => -(n : Int))
  | '+' :: rest =>
    match rest with
    | [] => none
    | _ => (parseDecDigits rest 0).map (fun n => (n : Int))
  | cs => (parseDecDigits cs 0).map (fun n => (n : Int))

/-- Python `int(x)` on a JSON value (numbers pass through, strings are
parsed in base 10, booleans coerce to 0/1). -/
def pyIntOf : JValue → Except PyError Int
  | .num n => .ok n
  | .bool b => .ok (if b then 1 else 0)
  | .str s =>
    match pyIntDec s with
    | some n => .ok n
    | none => .error (.valueError "invalid literal for int")
  | _ => .error (.typeError "int argument must be a string or a number")

/-- Python slicing `x[n:]` : strings and lists are sliceable. -/
def pySliceFrom : JValue → Nat → Except PyError JValue
  | .str s, n => .ok (.str ⟨s.toList.drop n⟩)
  | .arr xs, n => .ok (.arr (xs.drop n))
  | _, _ => .error (.typeError "object is not sliceable")

/-- Value of one hexadecimal digit. -/
def hexDigitVal (c : Char) : Option Nat :=
  if ('0' ≤ c && c ≤ '9') then some (c.toNat - '0'.toNat)
  else if ('a' ≤ c && c ≤ 'f') then some (c.toNat - 'a'.toNat + 10)
  else if ('A' ≤ c && c ≤ 'F') then some (c.toNat - 'A'.toNat + 10)
  else none

/-- Accumulating base-16 digit parser. -/
def parseHexDigits : List Char → Nat → Option Nat
  | [], acc => some acc
  | c :: rest, acc =>
    match hexDigitVal c with
    | some d => parseHexDigits rest (acc * 16 + d)
    | none => none

/-- Python `int(s, 16)` on a non-negative hex string, accepting an
optional `0x`/`0X` prefix. -/
def pyIntHex (s : String) : Option Nat :=
  let cs := s.toList
  let cs := if (cs.take 2 == ['0', 'x']) || (cs.take 2 == ['0', 'X']) then cs.drop 2 else cs
  match cs with
  | [] => none
  | _ => parseHexDigits cs 0

/-- Python `%`-formatting of a template against one string argument:
every `%s` in the template is replaced by the argument (the templates in
`connectors.py` contain exactly one `%s`). -/
def substSList (arg : List Char) : List Char → List Char
  | [] => []
  | '%' :: 's' :: rest => arg ++ substSList arg rest
  | c :: rest => c :: substSList arg rest

/-- URL construction `self.url % txid`. -/
def urlSub (template arg : String) : String :=
  ⟨substSList arg.toList template.toList⟩

/-- Chain identifiers used by the factory (values of `cert_core.Chain`
referenced by `connectors.py`; `cert_core` is an external collaborator). -/
inductive Chain where
  | mockchain
  | bitcoin_regtest
  | bitcoin_testnet
  | bitcoin_mainnet
  | ethereum_mainnet
  | ethereum_ropsten
deriving DecidableEq

/-- Python `str(chain)` rendering of a `cert_core.Chain` enum member. -/
def chainName : Chain → String
  | .mockchain => "Chain.mockchain"
  | .bitcoin_regtest => "Chain.bitcoin_regtest"
  | .bitcoin_testnet => "Chain.bitcoin_testnet"
  | .bitcoin_mainnet => "Chain.bitcoin_mainnet"
  | .ethereum_mainnet => "Chain.ethereum_mainnet"
  | .ethereum_ropsten => "Chain.ethereum_ropsten"

/-- The test `chain.blockchain_type == BlockchainType.ethereum` of
`createTransactionLookupConnector`. -/
def Chain.isEthereum : Chain → Bool
  | .ethereum_mainnet => true
  | .ethereum_ropsten => true
  | _ => false

/-- Modelled from the spec: the Canonical Transaction Record type
(`TransactionData`, defined in `cert_verifier/__init__.py`, which is not
under `src/`).  Field names follow the keyword arguments used at the call
sites in `connectors.py`; `revoked_addresses` is a set of JSON values
(modelled as an insertion-ordered duplicate-free list), and is `none`
when the Etherscan connector passes `revoked_addresses=None`. -/
structure TransactionData where
  signing_key : JValue
  script : JValue
  date_time_utc : JValue
  revoked_addresses : Option (List JValue)

/-- Python `set.add` on the insertion-ordered duplicate-free list that
models a set of JSON values. -/
def setAdd (s : List JValue) (v : JValue) : List JValue :=
  if s.any (fun x => JValue.beq x v) then s else s ++ [v]

/-- The value a connector `lookup_tx` returns to the fallback loop:
`MockConnector.lookup_tx` returns the constant `True`, the real
connectors return a `TransactionData`, and the abstract base class
`parse_tx` returns `None`.  Truthiness mirrors Python: only `None`
is falsy (`TransactionData` instances are truthy objects). -/
inductive PyRet where
  | pyNone
  | pyTrue
  | record (td : TransactionData)

/-- Python truthiness of a lookup result. -/
def PyRet.isTruthy : PyRet → Bool
  | .pyNone => false
  | .pyTrue => true
  | .record _ => true

/-- The network, as seen through `requests.get(url).{status_code,json()}`:
a map from request URL to status code and parsed JSON body. -/
def Net : Type := String → Nat × JValue

/-- `TransactionLookupConnector.fetch_tx` (lines 49-54): substitute the
transaction id into the URL template, and raise `InvalidTransactionError`
with a message naming only the txid when the status is not 200 (the URL
and status code go to `logging.error`, not into the exception). -/
def TransactionLookupConnector.fetch_tx (net : Net) (url : String) (txid : String) :
    Except PyError JValue :=
  let r := net (urlSub url txid)
  if r.1 ≠ 200 then
    .error (.invalidTransactionError ("error looking up transaction_id=" ++ txid))
  else
    .ok r.2

/-- `BlockchainInfoConnector.__init__` (lines 96-103): the per-chain URL
template; unsupported chains raise at construction time. -/
def BlockchainInfoConnector.init : Chain → Except PyError String
  | .bitcoin_testnet => .ok "https://testnet.blockchain.info/rawtx/%s?cors=true"
  | .bitcoin_mainnet => .ok "https://blockchain.info/rawtx/%s?cors=true"
  | c => .error (.exception ("unsupported chain (" ++ chainName c ++ ") requested with BlockchainInfo collector. Currently only testnet and mainnet are supported"))

/-- The output loop of `BlockchainInfoConnector.parse_tx` (lines 110-115):
`script` starts as Python `None` (modelled `JValue.null`); a zero-value
output overwrites it with `o[script][4:]`; a nonzero-value output with a
truthy `spent` flag adds `o.get(addr)` to the `revoked` set. -/
def infoFold : List JValue → JValue → List JValue → Except PyError (JValue × List JValue)
  | [], script, revoked => .ok (script, revoked)
  | o :: rest, script, revoked =>
    (o.dictGet "value" (.num 1)).bind (fun v =>
    (pyIntOf v).bind (fun vi =>
    if vi == 0 then
      (o.subscript "script").bind (fun sc =>
      (pySliceFrom sc 4).bind (fun s4 =>
      infoFold rest s4 revoked))
    else
      (o.dictGet "spent" .null).bind (fun sp =>
      if sp.isTruthy then
        (o.dictGet "addr" .null).bind (fun a =>
        infoFold rest script (setAdd revoked a))
      else
        infoFold rest script revoked)))

/-- `BlockchainInfoConnector.parse_tx` (lines 105-119).  The raise on a
missing op_return script executes Python
`InvalidTransactionError('transaction response is missing op_return script' % json_response)`;
the format string has no conversion specifier and `json_response` is a
dict (a mapping), so the `%` is the identity and the message is the bare
constant — the raw response reaches only the log, never the exception. -/
def BlockchainInfoConnector.parse_tx (json_response : JValue) : Except PyError TransactionData :=
  (json_response.subscript "time").bind (fun time =>
  (json_response.subscript "inputs").bind (fun inputs =>
  (inputs.index 0).bind (fun inp0 =>
  (inp0.subscript "prev_out").bind (fun prev =>
  (prev.subscript "addr").bind (fun signing_key =>
  (json_response.subscript "out").bind (fun outs =>
  (outs.iterList).bind (fun outList =>
  (infoFold outList .null []).bind (fun p =>
  if p.1.isTruthy then
    .ok ⟨signing_key, p.1, time, some p.2⟩
  else
    .error (.invalidTransactionError "transaction response is missing op_return script")))))))))

/-- `BlockcypherConnector.__init__` (lines 128-135). -/
def BlockcypherConnector.init : Chain → Except PyError String
  | .bitcoin_testnet => .ok "http://api.blockcypher.com/v1/btc/test3/txs/%s?limit=100"
  | .bitcoin_mainnet => .ok "https://api.blockcypher.com/v1/btc/main/txs/%s?limit=100"
  | c => .error (.exception ("unsupported chain (" ++ chainName c ++ ") requested with blockcypher collector. Currently only testnet and mainnet are supported"))

/-- The output loop of `BlockcypherConnector.parse_tx` (lines 142-147):
a zero-value output (`float(o.get(value, 1)) == 0`, integral values in
scope) overwrites `script` with `o[data_hex]`; a nonzero-value output
with a truthy `spent_by` adds `o.get(addresses)[0]` to the set. -/
def cypherFold : List JValue → JValue → List JValue → Except PyError (JValue × List JValue)
  | [], script, revoked => .ok (script, revoked)
  | o :: rest, script, revoked =>
    (o.dictGet "value" (.num 1)).bind (fun v =>
    (pyIntOf v).bind (fun vi =>
    if vi == 0 then
      (o.subscript "data_hex").bind (fun d =>
      cypherFold rest d revoked)
    else
      (o.dictGet "spent_by" .null).bind (fun sb =>
      if sb.isTruthy then
        (o.dictGet "addresses" .null).bind (fun as0 =>
        (as0.index 0).bind (fun a =>
        cypherFold rest script (setAdd revoked a)))
      else
        cypherFold rest script revoked)))

/-- `BlockcypherConnector.parse_tx` (lines 137-151); the missing-script
raise carries the same bare constant message as the BlockchainInfo one
(same no-specifier `%` against a mapping). -/
def BlockcypherConnector.parse_tx (json_response : JValue) : Except PyError TransactionData :=
  (json_response.subscript "received").bind (fun time =>
  (json_response.subscript "inputs").bind (fun inputs =>
  (inputs.index 0).bind (fun inp0 =>
  (inp0.subscript "addresses").bind (fun addrs =>
  (addrs.index 0).bind (fun signing_key =>
  (json_response.subscript "outputs").bind (fun outs =>
  (outs.iterList).bind (fun outList =>
  (cypherFold outList .null []).bind (fun p =>
  if p.1.isTruthy then
    .ok ⟨signing_key, p.1, time, some p.2⟩
  else
    .error (.invalidTransactionError "transaction response is missing op_return script")))))))))

/-- `MockConnector.lookup_tx` (lines 65-70): succeeds unconditionally and
returns the Python constant `True` — not a `TransactionData` record.  It
takes the network map only to share the connector interface; the result
never depends on it (no request is issued). -/
def MockConnector.lookup_tx (chain : Chain) (net : Net) (txid : String) :
    Except PyError PyRet :=
  .ok .pyTrue

/-- `EtherscanConnector`: the two URL templates built by `__init__`
(lines 167-177). -/
structure EtherscanConnector where
  url : String
  timestamp_url : String

/-- `EtherscanConnector.__init__` (lines 167-177). -/
def EtherscanConnector.init (chain : Chain) (api_key : String) :
    Except PyError EtherscanConnector :=
  match chain with
  | .ethereum_mainnet =>
    .ok ⟨"https://api.etherscan.io/api?module=proxy&action=eth_getTransactionByHash&apikey=" ++ api_key ++ "&txhash=%s",
         "https://api.etherscan.io/api?module=block&action=getblockreward&apikey=" ++ api_key ++ "&blockno=%s"⟩
  | .ethereum_ropsten =>
    .ok ⟨"https://ropsten.etherscan.io/api?module=proxy&action=eth_getTransactionByHash&apikey=" ++ api_key ++ "&txhash=%s",
         "https://ropsten.etherscan.io/api?module=block&action=getblockreward&apikey=" ++ api_key ++ "&blockno=%s"⟩
  | c => .error (.exception ("unsupported chain (" ++ chainName c ++ ") requested with Etherscan collector. Currently only mainnet and ropsten are supported"))

/-- `EtherscanConnector.parse_tx` (lines 179-196): reads the signing key,
input data and block number from the primary response, rejects a falsy
input field and a falsy block number, then performs the dependent fetch
of the block timestamp (`int(block_no, 16)` requires the block number to
be a string) and builds the record with `revoked_addresses=None`. -/
def EtherscanConnector.parse_tx (c : EtherscanConnector) (net : Net) (json_response : JValue) :
    Except PyError TransactionData :=
  (json_response.subscript "result").bind (fun result =>
  (result.subscript "from").bind (fun signing_key =>
  (result.subscript "input").bind (fun script =>
  (result.subscript "blockNumber").bind (fun block_no =>
  if script.isTruthy = false then
    .error (.invalidTransactionError "transaction response is missing input")
  else if block_no.isTruthy = false then
    .error (.invalidTransactionError "transaction is not yet confirmed")
  else
    match block_no with
    | .str bs =>
      match pyIntHex bs with
      | some n =>
        if (net (urlSub c.timestamp_url (toString n))).1 ≠ 200 then
          .error (.invalidTransactionError ("error looking up block timestamp=" ++ bs))
        else
          ((net (urlSub c.timestamp_url (toString n))).2.subscript "result").bind (fun result2 =>
          (result2.subscript "timeStamp").bind (fun ts =>
          (pyIntOf ts).bind (fun dt =>
          .ok ⟨signing_key, script, .num dt, none⟩)))
      | none => .error (.valueError "invalid literal for int with base 16")
    | _ => .error (.typeError "int cannot convert non-string with explicit base")))))

/-- `EtherscanConnector.lookup_tx` — the inherited
`TransactionLookupConnector.lookup_tx` (lines 45-47): fetch then parse. -/
def EtherscanConnector.lookup_tx (c : EtherscanConnector) (net : Net) (txid : String) :
    Except PyError PyRet :=
  (TransactionLookupConnector.fetch_tx net c.url txid).bind (fun j =>
  (EtherscanConnector.parse_tx c net j).bind (fun td =>
  .ok (.record td)))

/-- `BlockchainInfoConnector.lookup_tx` — the inherited fetch-then-parse
protocol applied to the blockchain.info URL template. -/
def BlockchainInfoConnector.lookup_tx (url : String) (net : Net) (txid : String) :
    Except PyError PyRet :=
  (TransactionLookupConnector.fetch_tx net url txid).bind (fun j =>
  (BlockchainInfoConnector.parse_tx j).bind (fun td =>
  .ok (.record td)))

/-- `BlockcypherConnector.lookup_tx` — the inherited fetch-then-parse
protocol applied to the blockcypher URL template. -/
def BlockcypherConnector.lookup_tx (url : String) (net : Net) (txid : String) :
    Except PyError PyRet :=
  (TransactionLookupConnector.fetch_tx net url txid).bind (fun j =>
  (BlockcypherConnector.parse_tx j).bind (fun td =>
  .ok (.record td)))

/-- `FallbackConnector` state: the two connectors built by `__init__`
(line 75), `[BlockchainInfoConnector(chain), BlockcypherConnector(chain)]`,
represented by their URL templates in construction order. -/
structure FallbackConnector where
  infoUrl : String
  cypherUrl : String

/-- `FallbackConnector.__init__` (lines 73-75): constructing either UTXO
connector for an unsupported chain raises at construction time. -/
def FallbackConnector.init (chain : Chain) : Except PyError FallbackConnector :=
  (BlockchainInfoConnector.init chain).bind (fun u1 =>
  (BlockcypherConnector.init chain).bind (fun u2 =>
  .ok ⟨u1, u2⟩))

/-- The ordered adapter list `self.connectors` of a `FallbackConnector`,
with the network map applied. -/
def FallbackConnector.connectors (fc : FallbackConnector) (net : Net) :
    List (String → Except PyError PyRet) :=
  [BlockchainInfoConnector.lookup_tx fc.infoUrl net,
   BlockcypherConnector.lookup_tx fc.cypherUrl net]

/-- The loop of `FallbackConnector.lookup_tx` (lines 77-87), parameterized
by the remaining adapters and the `exceptions` accumulator: a truthy
return short-circuits, a falsy return falls through without recording
anything, a raise is recorded and falls through; when the adapters are
exhausted, `InvalidTransactionError(exceptions)` is raised. -/
def fallback_lookup_go (txid : String) :
    List (String → Except PyError PyRet) → List PyError → Except PyError PyRet
  | [], exceptions => .error (.invalidTransactionErrorList exceptions)
  | c :: rest, exceptions =>
    match c txid with
    | .ok response =>
      if response.isTruthy then .ok response
      else fallback_lookup_go txid rest exceptions
    | .error e => fallback_lookup_go txid rest (exceptions ++ [e])

/-- `FallbackConnector.lookup_tx` (lines 77-87) over an arbitrary ordered
adapter list (the loop body with `self.connectors` as a parameter). -/
def fallback_lookup (connectors : List (String → Except PyError PyRet)) (txid : String) :
    Except PyError PyRet :=
  fallback_lookup_go txid connectors []

/-- `FallbackConnector.lookup_tx` of the concrete connector: the loop
applied to the two UTXO adapters in construction order. -/
def FallbackConnector.lookup_tx (fc : FallbackConnector) (net : Net) (txid : String) :
    Except PyError PyRet :=
  fallback_lookup (fc.connectors net) txid

/-- The choice `createTransactionLookupConnector` returns. -/
inductive ConnectorChoice where
  | mock (chain : Chain)
  | etherscan (c : EtherscanConnector)
  | fallback (fc : FallbackConnector)

/-- `createTransactionLookupConnector` (lines 21-34): mock/regtest chains
get the `MockConnector`; ethereum chains get a single
`EtherscanConnector` with the `etherscan_api_token` option (default
empty string); everything else gets the `FallbackConnector`. -/
def createTransactionLookupConnector (chain : Chain)
    (options : Option (List (String × String))) : Except PyError ConnectorChoice :=
  if chain = Chain.mockchain ∨ chain = Chain.bitcoin_regtest then
    .ok (.mock chain)
  else if chain.isEthereum then
    let token :=
      match options with
      | some opts =>
        match opts.find? (fun p => p.1 == "etherscan_api_token") with
        | some p => p.2
        | none => ""
      | none => ""
    (EtherscanConnector.init chain token).bind (fun c => .ok (.etherscan c))
  else
    (FallbackConnector.init chain).bind (fun fc => .ok (.fallback fc))

/-- `get_remote_json` (lines 154-162): `None` on a non-200 status, the
parsed JSON body otherwise. -/
def get_remote_json (net : Net) (the_url : String) : Option JValue :=
  let r := net the_url
  if r.1 ≠ 200 then none else some r.2

/-- `get_field_or_default` (lines 199-203). -/
def get_field_or_default (data : JValue) (field_name : String) : Except PyError JValue :=
  (pyContains data field_name).bind (fun b =>
  if b then data.subscript field_name else .ok .null)

/-- Modelled from the spec: the `IssuerKey` value type (defined in
`cert_verifier/__init__.py`, not under `src/`): a public key string plus
optional created/expires/revoked timestamps, the optional fields
defaulting to Python `None`. -/
structure IssuerKey where
  public_key : JValue
  created : JValue
  expires : JValue
  revoked : JValue

/-- Modelled from the spec: the Issuer Authority model (`IssuerInfo` in
`cert_verifier/__init__.py`, not under `src/`): an ordered list of keys,
a legacy-only `revocation_keys` list (empty when the keyword is not
passed), and the `revoked_assertions` collection (empty when the keyword
is not passed). -/
structure IssuerInfo where
  issuer_keys : List IssuerKey
  revocation_keys : List IssuerKey
  revoked_assertions : List JValue

/-- Modelled from the spec: the well-known key-identifier prefix
(`PUBKEY_PREFIX`, imported from the external `cert_core`), stripped off
the front of key id fields. -/
def pubkeyMarker : String := "ecdsa-koblitz-pubkey:"

/-- `BlockcertVersion` values of `cert_core` used by `get_issuer_info`. -/
inductive BlockcertVersion where
  | V1_1
  | V1_2
  | V2
  | V2_ALPHA
deriving DecidableEq

/-- The test `certificate_model.version == BlockcertVersion.V2 or
certificate_model.version == BlockcertVersion.V2_ALPHA` (line 213). -/
def v2ish : BlockcertVersion → Bool
  | .V2 => true
  | .V2_ALPHA => true
  | _ => false

/-- The fields of `certificate_model` that `get_issuer_info` reads:
`issuer.id` (the issuer profile URL), `version`, `certificate_json`. -/
structure CertificateModel where
  issuer_id : String
  version : BlockcertVersion
  certificate_json : JValue

/-- Python `requests.get` needs a string URL; passing any other JSON
value raises. -/
def asRequestUrl : JValue → Except PyError String
  | .str s => .ok s
  | _ => .error (.typeError "url must be a string")

/-- Lines 211-219 of `get_issuer_info`: collect `revoked_assertions` from
the credential-embedded revocation list when the credential is V2 or
V2-alpha.  A failed fetch (`get_remote_json` returning `None`) or a falsy
body leaves the collection empty; a truthy body is subscripted with
`revokedAssertions` (a `KeyError` there propagates) and, when that
collection is truthy, its entries are mapped over their `id` field. -/
def computeRevokedAssertions (net : Net) (cm : CertificateModel) :
    Except PyError (List JValue) :=
  if v2ish cm.version then
    (cm.certificate_json.subscript "badge").bind (fun badge =>
    (badge.subscript "issuer").bind (fun issuer =>
    (pyContains issuer "revocationList").bind (fun hasRl =>
    if hasRl then
      (issuer.subscript "revocationList").bind (fun rurlJ =>
      (asRequestUrl rurlJ).bind (fun rurl =>
      match get_remote_json net rurl with
      | none => .ok []
      | some revoked_json =>
        if revoked_json.isTruthy then
          (revoked_json.subscript "revokedAssertions").bind (fun ras =>
          if ras.isTruthy then
            (ras.iterList).bind (fun lst =>
            lst.mapM (fun r => r.subscript "id"))
          else .ok [])
        else .ok []))
    else .ok [])))
  else .ok []

/-- One entry of the current-format `publicKey` collection (lines
225-230): strip the key-identifier prefix off the `id` field, carry the
optional timestamps through. -/
def parseKeyEntryCurrent (public_key : JValue) : Except PyError IssuerKey :=
  (public_key.subscript "id").bind (fun idv =>
  (pySliceFrom idv pubkeyMarker.length).bind (fun pk =>
  (get_field_or_default public_key "created").bind (fun created =>
  (get_field_or_default public_key "expires").bind (fun expires =>
  (get_field_or_default public_key "revoked").bind (fun revoked =>
  .ok ⟨pk, created, expires, revoked⟩)))))

/-- One entry of the legacy v2-alpha `publicKeys` collection (lines
232-239): same extraction through the `publicKey` field. -/
def parseKeyEntryAlpha (public_key : JValue) : Except PyError IssuerKey :=
  (public_key.subscript "publicKey").bind (fun pkv =>
  (pySliceFrom pkv pubkeyMarker.length).bind (fun pk =>
  (get_field_or_default public_key "created").bind (fun created =>
  (get_field_or_default public_key "expires").bind (fun expires =>
  (get_field_or_default public_key "revoked").bind (fun revoked =>
  .ok ⟨pk, created, expires, revoked⟩)))))

/-- Lines 221-250 of `get_issuer_info`: shape-directed key extraction
from the fetched issuer profile.  With an `@context` marker, the
`publicKey` (current) then `publicKeys` (v2-alpha) collections are
tried; note that when neither is present the function still returns
successfully, with an empty key list.  Without `@context` (legacy V1),
exactly one key is taken from `issuerKeys`; when `revoked_assertions`
is non-empty (truthy) the result is keys-only, otherwise one entry of
`revocationKeys` is extracted into `revocation_keys`. -/
def parseIssuerKeys (issuer_json : JValue) (revoked_assertions : List JValue) :
    Except PyError IssuerInfo :=
  (pyContains issuer_json "@context").bind (fun hasCtx =>
  if hasCtx then
    (pyContains issuer_json "publicKey").bind (fun hasPk =>
    if hasPk then
      (issuer_json.subscript "publicKey").bind (fun pks =>
      (pks.iterList).bind (fun lst =>
      (lst.mapM parseKeyEntryCurrent).bind (fun issuer_keys =>
      .ok ⟨issuer_keys, [], revoked_assertions⟩)))
    else
      (pyContains issuer_json "publicKeys").bind (fun hasPks =>
      if hasPks then
        (issuer_json.subscript "publicKeys").bind (fun pks =>
        (pks.iterList).bind (fun lst =>
        (lst.mapM parseKeyEntryAlpha).bind (fun issuer_keys =>
        .ok ⟨issuer_keys, [], revoked_assertions⟩)))
      else
        .ok ⟨[], [], revoked_assertions⟩))
  else
    (issuer_json.subscript "issuerKeys").bind (fun iks =>
    (iks.index 0).bind (fun ik0 =>
    (ik0.subscript "key").bind (fun kv =>
    if revoked_assertions.isEmpty then
      (issuer_json.subscript "revocationKeys").bind (fun rks =>
      (rks.index 0).bind (fun rk0 =>
      (rk0.subscript "key").bind (fun rkv =>
      .ok ⟨[⟨kv, .null, .null, .null⟩], [⟨rkv, .null, .null, .null⟩], []⟩)))
    else
      .ok ⟨[⟨kv, .null, .null, .null⟩], [], revoked_assertions⟩))))

/-- `get_issuer_info` (lines 206-250): fetch the issuer profile (a
missing or falsy document is a fatal `Exception`), collect the
revoked-assertions set, then extract keys by profile shape. -/
def get_issuer_info (net : Net) (cm : CertificateModel) : Except PyError IssuerInfo :=
  match get_remote_json net cm.issuer_id with
  | none => .error (.exception ("Issuer URL returned no results " ++ cm.issuer_id))
  | some issuer_json =>
    if issuer_json.isTruthy then
      (computeRevokedAssertions net cm).bind (fun ra =>
      parseIssuerKeys issuer_json ra)
    else
      .error (.exception ("Issuer URL returned no results " ++ cm.issuer_id))

/-- Bind on `Except` applied to a success. -/
theorem except_bind_ok {α β : Type} {e : Type} (a : α) (f : α → Except e β) :
    (Except.ok a).bind f = f a := rfl

/-- Bind on `Except` applied to a failure. -/
theorem except_bind_error {α β : Type} {ε : Type} (e : ε) (f : α → Except ε β) :
    (Except.error e : Except ε α).bind f = .error e := rfl

/-- Inversion of a successful `Except.bind`. -/
theorem bind_ok_inv {α β ε : Type} {x : Except ε α} {f : α → Except ε β} {b : β}
    (h : x.bind f = .ok b) : ∃ a, x = .ok a ∧ f a = .ok b := by
  cases x with
  | error e => simp [Except.bind] at h
  | ok a => exact ⟨a, rfl, h⟩

/-- The spec's notion of a failed adapter attempt: the lookup raised, or
it returned a falsy (empty/null) value without raising. -/
def lookupFails (r : Except PyError PyRet) : Prop :=
  (∃ e, r = .error e) ∨ (∃ v, r = .ok v ∧ v.isTruthy = false)

/-- A prefix of adapters that all fail is skipped by the fallback loop,
only growing the exception accumulator. -/
theorem fallback_go_skip (txid : String) (pre tail : List (String → Except PyError PyRet))
    (hpre : ∀ c ∈ pre, lookupFails (c txid)) (acc : List PyError) :
    ∃ acc2, fallback_lookup_go txid (pre ++ tail) acc = fallback_lookup_go txid tail acc2 := by
  induction pre generalizing acc with
  | nil => exact ⟨acc, rfl⟩
  | cons c cs ih =>
    have hcs : ∀ x ∈ cs, lookupFails (x txid) := fun x hx => hpre x (by simp [hx])
    rcases hpre c (by simp) with ⟨e, he⟩ | ⟨v, hv, hf⟩
    · have hstep : fallback_lookup_go txid ((c :: cs) ++ tail) acc =
          fallback_lookup_go txid (cs ++ tail) (acc ++ [e]) := by
        simp [fallback_lookup_go, he]
      rw [hstep]; exact ih hcs (acc ++ [e])
    · have hstep : fallback_lookup_go txid ((c :: cs) ++ tail) acc =
          fallback_lookup_go txid (cs ++ tail) acc := by
        simp [fallback_lookup_go, hv, hf]
      rw [hstep]; exact ih hcs acc

/-- C2: on the fallback coordinator, adapters are tried in the fixed
construction order; every adapter before the first one whose lookup
returns a truthy (non-empty/non-null) value falls through — whether it
raised or returned a falsy value — and that first success is returned
as the overall result, later adapters never being consulted and no
aggregate failure being raised. -/
theorem fallback_first_success_short_circuits
    (pre rest : List (String → Except PyError PyRet)) (good : String → Except PyError PyRet)
    (txid : String) (r : PyRet)
    (hpre : ∀ c ∈ pre, lookupFails (c txid))
    (hgood : good txid = .ok r) (hr : r.isTruthy = true) :
    fallback_lookup (pre ++ good :: rest) txid = .ok r := by
  obtain ⟨acc2, h⟩ := fallback_go_skip txid pre (good :: rest) hpre []
  rw [fallback_lookup, h]
  simp [fallback_lookup_go, hgood, hr]

/-- A raising adapter and a falsy-returning adapter, followed by a
succeeding adapter and a never-consulted trailing adapter. -/
def wFailRaise : String → Except PyError PyRet := fun _ => .error (.exception "provider down")

/-- Adapter that returns Python `None` without raising. -/
def wFailNone : String → Except PyError PyRet := fun _ => .ok .pyNone

/-- Adapter that succeeds with the constant `True`. -/
def wGood : String → Except PyError PyRet := fun _ => .ok .pyTrue

/-- Trailing adapter that would raise if it were ever consulted. -/
def wLater : String → Except PyError PyRet := fun _ => .error (.exception "later provider")

/-- Witness for C2 at a concrete adapter list. -/
theorem fallback_first_success_short_circuits_witness :
    fallback_lookup ([wFailRaise, wFailNone] ++ wGood :: [wLater]) "t1" = .ok .pyTrue := by
  refine fallback_first_success_short_circuits [wFailRaise, wFailNone] [wLater] wGood "t1"
    .pyTrue ?_ rfl rfl
  intro c hc
  simp only [List.mem_cons, List.not_mem_nil, or_false] at hc
  rcases hc with h | h
  · subst h; exact Or.inl ⟨.exception "provider down", rfl⟩
  · subst h; exact Or.inr ⟨.pyNone, rfl, rfl⟩

/-- A successful `BlockchainInfoConnector.lookup_tx` always returns a
(truthy) `TransactionData` record, never a falsy value. -/
theorem info_lookup_ok_truthy (url : String) (net : Net) (txid : String) (v : PyRet)
    (h : BlockchainInfoConnector.lookup_tx url net txid = .ok v) : v.isTruthy = true := by
  unfold BlockchainInfoConnector.lookup_tx at h
  obtain ⟨j, hj, h⟩ := bind_ok_inv h
  obtain ⟨td, htd, h⟩ := bind_ok_inv h
  cases h
  rfl

/-- A successful `BlockcypherConnector.lookup_tx` always returns a
(truthy) `TransactionData` record, never a falsy value. -/
theorem cypher_lookup_ok_truthy (url : String) (net : Net) (txid : String) (v : PyRet)
    (h : BlockcypherConnector.lookup_tx url net txid = .ok v) : v.isTruthy = true := by
  unfold BlockcypherConnector.lookup_tx at h
  obtain ⟨j, hj, h⟩ := bind_ok_inv h
  obtain ⟨td, htd, h⟩ := bind_ok_inv h
  cases h
  rfl

/-- C1: when both configured adapters of the concrete fallback
coordinator fail (raise, or — hypothetically — return a falsy value:
for these two adapters any failure is in fact a raise, since their
successful lookups always return truthy records), the coordinator
raises a single `InvalidTransactionError` whose payload is the list of
the two underlying failures in construction order, one per attempted
adapter — its length equals the number of configured adapters. -/
theorem fallback_all_fail_aggregates (fc : FallbackConnector) (net : Net) (txid : String)
    (h1 : lookupFails (BlockchainInfoConnector.lookup_tx fc.infoUrl net txid))
    (h2 : lookupFails (BlockcypherConnector.lookup_tx fc.cypherUrl net txid)) :
    ∃ e1 e2 : PyError,
      BlockchainInfoConnector.lookup_tx fc.infoUrl net txid = .error e1 ∧
      BlockcypherConnector.lookup_tx fc.cypherUrl net txid = .error e2 ∧
      FallbackConnector.lookup_tx fc net txid = .error (.invalidTransactionErrorList [e1, e2]) ∧
      [e1, e2].length = (fc.connectors net).length := by
  rcases h1 with ⟨e1, he1⟩ | ⟨v, hv, hf⟩
  · rcases h2 with ⟨e2, he2⟩ | ⟨v, hv, hf⟩
    · refine ⟨e1, e2, he1, he2, ?_, rfl⟩
      unfold FallbackConnector.lookup_tx fallback_lookup FallbackConnector.connectors
      simp [fallback_lookup_go, he1, he2]
    · exact absurd (cypher_lookup_ok_truthy _ _ _ _ hv) (by simp [hf])
  · exact absurd (info_lookup_ok_truthy _ _ _ _ hv) (by simp [hf])

/-- Network on which every request answers with status 500. -/
def net500 : Net := fun _ => (500, .null)

/-- The concrete mainnet fallback connector state. -/
def fcMain : FallbackConnector :=
  ⟨"https://blockchain.info/rawtx/%s?cors=true",
   "https://api.blockcypher.com/v1/btc/main/txs/%s?limit=100"⟩

/-- Witness for C1: on a network where every provider answers 500, the
coordinator raises the aggregate error with both underlying failures. -/
theorem fallback_all_fail_aggregates_witness :
    FallbackConnector.lookup_tx fcMain net500 "tx1" =
      .error (.invalidTransactionErrorList
        [.invalidTransactionError ("error looking up transaction_id=" ++ "tx1"),
         .invalidTransactionError ("error looking up transaction_id=" ++ "tx1")]) := by
  obtain ⟨e1, e2, he1, he2, h3, _⟩ :=
    fallback_all_fail_aggregates fcMain net500 "tx1" (Or.inl ⟨_, rfl⟩) (Or.inl ⟨_, rfl⟩)
  have hc1 : BlockchainInfoConnector.lookup_tx fcMain.infoUrl net500 "tx1" =
      .error (.invalidTransactionError ("error looking up transaction_id=" ++ "tx1")) := rfl
  have hc2 : BlockcypherConnector.lookup_tx fcMain.cypherUrl net500 "tx1" =
      .error (.invalidTransactionError ("error looking up transaction_id=" ++ "tx1")) := rfl
  injection hc1.symm.trans he1 with h1e
  injection hc2.symm.trans he2 with h2e
  rw [← h1e, ← h2e] at h3
  exact h3

/-- Network on which every request answers with status 404. -/
def net404 : Net := fun _ => (404, .null)

/-- C3 counterexample: a non-success fetch raises the code's single
`InvalidTransactionError` class — there is no distinct RemoteUnavailable
classification — and its payload names only the transaction id: two
fetches differing in both request URL and response status produce the
very same exception, so the failure carries neither the URL nor the
status. -/
theorem fetch_nonsuccess_error_not_distinct :
    TransactionLookupConnector.fetch_tx net404 "https://blockchain.info/rawtx/%s?cors=true" "abc" =
      .error (.invalidTransactionError "error looking up transaction_id=abc") ∧
    TransactionLookupConnector.fetch_tx net500 "http://api.blockcypher.com/v1/btc/test3/txs/%s?limit=100" "abc" =
      TransactionLookupConnector.fetch_tx net404 "https://blockchain.info/rawtx/%s?cors=true" "abc" :=
  ⟨rfl, rfl⟩

/-- C3 amended: for every fetch whose response status is not 200, the
raised failure is `InvalidTransactionError` with a message carrying the
transaction id (the request URL and the status are only logged). -/
theorem fetch_nonsuccess_raises_invalid_transaction (net : Net) (url txid : String)
    (h : (net (urlSub url txid)).1 ≠ 200) :
    TransactionLookupConnector.fetch_tx net url txid =
      .error (.invalidTransactionError ("error looking up transaction_id=" ++ txid)) := by
  unfold TransactionLookupConnector.fetch_tx
  simp [h]

/-- Witness for the amended C3 at a concrete 404 response. -/
theorem fetch_nonsuccess_raises_invalid_transaction_witness :
    TransactionLookupConnector.fetch_tx net404 "https://blockchain.info/rawtx/%s?cors=true" "tx9" =
      .error (.invalidTransactionError ("error looking up transaction_id=" ++ "tx9")) :=
  fetch_nonsuccess_raises_invalid_transaction net404
    "https://blockchain.info/rawtx/%s?cors=true" "tx9" (by decide)

/-- Whether a lookup result is a successful `TransactionData` record. -/
def lookupReturnsRecord (r : Except PyError PyRet) : Bool :=
  match r with
  | .ok (.record _) => true
  | _ => false

/-- C9 counterexample: the mock connector's lookup succeeds with the
Python constant `True`, which is not a canonical transaction record. -/
theorem mock_lookup_returns_true_not_record :
    MockConnector.lookup_tx Chain.mockchain net500 "any-tx" = .ok .pyTrue ∧
    lookupReturnsRecord (MockConnector.lookup_tx Chain.mockchain net500 "any-tx") = false :=
  ⟨rfl, rfl⟩

/-- C9 amended: for both sandbox/test chains the factory returns the
mock connector (whatever the options), and every mock lookup succeeds
unconditionally with the constant `True` — for every network map alike,
so no network request can influence (or be needed for) the result. -/
theorem mock_connector_unconditional_success :
    ∀ (options : Option (List (String × String))) (chain : Chain) (net : Net) (txid : String),
      createTransactionLookupConnector Chain.mockchain options = .ok (.mock Chain.mockchain) ∧
      createTransactionLookupConnector Chain.bitcoin_regtest options = .ok (.mock Chain.bitcoin_regtest) ∧
      MockConnector.lookup_tx chain net txid = .ok .pyTrue :=
  fun _ _ _ _ => ⟨rfl, rfl, rfl⟩

/-- C10, first part: every successful parse of the account-based
Etherscan adapter yields `revoked_addresses = None`; second and third
parts: the two UTXO-style adapters always yield an actual (possibly
empty) set. -/
theorem etherscan_revoked_addresses_none :
    (∀ (c : EtherscanConnector) (net : Net) (j : JValue) (td : TransactionData),
      EtherscanConnector.parse_tx c net j = .ok td → td.revoked_addresses = none) ∧
    (∀ (j : JValue) (td : TransactionData),
      BlockchainInfoConnector.parse_tx j = .ok td → ∃ rv, td.revoked_addresses = some rv) ∧
    (∀ (j : JValue) (td : TransactionData),
      BlockcypherConnector.parse_tx j = .ok td → ∃ rv, td.revoked_addresses = some rv) := by
  refine ⟨?_, ?_, ?_⟩
  · intro c net j td h
    unfold EtherscanConnector.parse_tx at h
    obtain ⟨result, h1, h⟩ := bind_ok_inv h
    obtain ⟨sk, h2, h⟩ := bind_ok_inv h
    obtain ⟨sc, h3, h⟩ := bind_ok_inv h
    obtain ⟨bn, h4, h⟩ := bind_ok_inv h
    split at h
    · simp at h
    · split at h
      · simp at h
      · split at h
        · split at h
          · split at h
            · simp at h
            · obtain ⟨r2, h5, h⟩ := bind_ok_inv h
              obtain ⟨ts, h6, h⟩ := bind_ok_inv h
              obtain ⟨dt, h7, h⟩ := bind_ok_inv h
              cases h
              rfl
          · simp at h
        · simp at h
  · intro j td h
    unfold BlockchainInfoConnector.parse_tx at h
    obtain ⟨time, h1, h⟩ := bind_ok_inv h
    obtain ⟨inputs, h2, h⟩ := bind_ok_inv h
    obtain ⟨inp0, h3, h⟩ := bind_ok_inv h
    obtain ⟨prev, h4, h⟩ := bind_ok_inv h
    obtain ⟨sk, h5, h⟩ := bind_ok_inv h
    obtain ⟨outs, h6, h⟩ := bind_ok_inv h
    obtain ⟨outList, h7, h⟩ := bind_ok_inv h
    obtain ⟨p, h8, h⟩ := bind_ok_inv h
    split at h
    · cases h; exact ⟨p.2, rfl⟩
    · simp at h
  · intro j td h
    unfold BlockcypherConnector.parse_tx at h
    obtain ⟨time, h1, h⟩ := bind_ok_inv h
    obtain ⟨inputs, h2, h⟩ := bind_ok_inv h
    obtain ⟨inp0, h3, h⟩ := bind_ok_inv h
    obtain ⟨addrs, h4, h⟩ := bind_ok_inv h
    obtain ⟨sk, h5, h⟩ := bind_ok_inv h
    obtain ⟨outs, h6, h⟩ := bind_ok_inv h
    obtain ⟨outList, h7, h⟩ := bind_ok_inv h
    obtain ⟨p, h8, h⟩ := bind_ok_inv h
    split at h
    · cases h; exact ⟨p.2, rfl⟩
    · simp at h

/-- Network answering every request with the block-timestamp document. -/
def tsNet : Net := fun _ => (200, .obj [("result", .obj [("timeStamp", .str "1600")])])

/-- Concrete mainnet Etherscan connector (empty API token). -/
def ethMainW : EtherscanConnector :=
  ⟨"https://api.etherscan.io/api?module=proxy&action=eth_getTransactionByHash&apikey=&txhash=%s",
   "https://api.etherscan.io/api?module=block&action=getblockreward&apikey=&blockno=%s"⟩

/-- Concrete confirmed Etherscan transaction response. -/
def ethJsonW : JValue :=
  .obj [("result", .obj [("from", .str "0xab"), ("input", .str "0x12"), ("blockNumber", .str "0x2")])]

/-- The record the Etherscan adapter produces for `ethJsonW`. -/
def ethTdW : TransactionData := ⟨.str "0xab", .str "0x12", .num 1600, none⟩

/-- Witness for C10 at a concrete successful Etherscan parse. -/
theorem etherscan_revoked_addresses_none_witness :
    EtherscanConnector.parse_tx ethMainW tsNet ethJsonW = .ok ethTdW ∧
    ethTdW.revoked_addresses = none :=
  ⟨rfl, etherscan_revoked_addresses_none.1 ethMainW tsNet ethJsonW ethTdW rfl⟩

/-- An output entry that takes the nonzero-value branch of the
blockchain.info loop: its (defaulted) `value` converts to a nonzero
integer. -/
def infoNonzeroOut (o : JValue) : Prop :=
  ∃ v n, o.dictGet "value" (.num 1) = .ok v ∧ pyIntOf v = .ok n ∧ ¬ n = 0

/-- An output entry that takes the nonzero-value branch of the
blockcypher loop without raising: nonzero (defaulted) `value`, and if
its `spent_by` is truthy then `addresses[0]` exists. -/
def cypherNonzeroOut (o : JValue) : Prop :=
  (∃ v n, o.dictGet "value" (.num 1) = .ok v ∧ pyIntOf v = .ok n ∧ ¬ n = 0) ∧
  (∀ sb, o.dictGet "spent_by" .null = .ok sb → sb.isTruthy = true →
    ∃ as0 a, o.dictGet "addresses" .null = .ok as0 ∧ as0.index 0 = .ok a)

/-- A successful `get` means the receiver was a dict. -/
theorem dictGet_ok_obj {j : JValue} {k : String} {d v : JValue}
    (h : j.dictGet k d = .ok v) : ∃ fs, j = .obj fs := by
  cases j with
  | obj fs => exact ⟨fs, rfl⟩
  | null => simp [JValue.dictGet] at h
  | bool b => simp [JValue.dictGet] at h
  | num n => simp [JValue.dictGet] at h
  | str s => simp [JValue.dictGet] at h
  | arr xs => simp [JValue.dictGet] at h

/-- On a dict, `get` always succeeds. -/
theorem obj_dictGet_ok (fs : List (String × JValue)) (k : String) (d : JValue) :
    ∃ u, (JValue.obj fs).dictGet k d = .ok u := by
  cases hf : fs.find? (fun p => p.1 == k) with
  | none => exact ⟨d, by simp [JValue.dictGet, hf]⟩
  | some p => exact ⟨p.2, by simp [JValue.dictGet, hf]⟩

/-- Nonzero-value outputs are passed over by the blockchain.info loop:
`script` is untouched, only the revoked set may grow. -/
theorem infoFold_skip (xs ys : List JValue) (h : ∀ o ∈ xs, infoNonzeroOut o) :
    ∀ (s : JValue) (rv : List JValue), ∃ rv2, infoFold (xs ++ ys) s rv = infoFold ys s rv2 := by
  induction xs with
  | nil => exact fun s rv => ⟨rv, rfl⟩
  | cons o rest ih =>
    intro s rv
    obtain ⟨v, n, hv, hn, hnz⟩ := h o (by simp)
    have hrest : ∀ x ∈ rest, infoNonzeroOut x := fun x hx => h x (by simp [hx])
    obtain ⟨fs, hfs⟩ := dictGet_ok_obj hv
    subst hfs
    obtain ⟨sp, hsp⟩ := obj_dictGet_ok fs "spent" .null
    have hne : (n == 0) = false := by simp [hnz]
    simp only [List.cons_append]
    cases hspt : sp.isTruthy with
    | true =>
      obtain ⟨a, ha⟩ := obj_dictGet_ok fs "addr" .null
      have hstep : infoFold (JValue.obj fs :: (rest ++ ys)) s rv =
          infoFold (rest ++ ys) s (setAdd rv a) := by
        simp [infoFold, except_bind_ok, hv, hn, hnz, hsp, hspt, ha]
      rw [hstep]
      exact ih hrest s (setAdd rv a)
    | false =>
      have hstep : infoFold (JValue.obj fs :: (rest ++ ys)) s rv =
          infoFold (rest ++ ys) s rv := by
        simp [infoFold, except_bind_ok, hv, hn, hnz, hsp, hspt]
      rw [hstep]
      exact ih hrest s rv

/-- A zero-value output overwrites `script` with the sliced script. -/
theorem infoFold_zero_step (o : JValue) (rest : List JValue) (s : JValue) (rv : List JValue)
    (v sc payload : JValue)
    (hv : o.dictGet "value" (.num 1) = .ok v) (h0 : pyIntOf v = .ok 0)
    (hs : o.subscript "script" = .ok sc) (hp : pySliceFrom sc 4 = .ok payload) :
    infoFold (o :: rest) s rv = infoFold rest payload rv := by
  simp [infoFold, except_bind_ok, hv, h0, hs, hp]

/-- Nonzero-value outputs are passed over by the blockcypher loop. -/
theorem cypherFold_skip (xs ys : List JValue) (h : ∀ o ∈ xs, cypherNonzeroOut o) :
    ∀ (s : JValue) (rv : List JValue), ∃ rv2, cypherFold (xs ++ ys) s rv = cypherFold ys s rv2 := by
  induction xs with
  | nil => exact fun s rv => ⟨rv, rfl⟩
  | cons o rest ih =>
    intro s rv
    obtain ⟨⟨v, n, hv, hn, hnz⟩, hspent⟩ := h o (by simp)
    have hrest : ∀ x ∈ rest, cypherNonzeroOut x := fun x hx => h x (by simp [hx])
    obtain ⟨fs, hfs⟩ := dictGet_ok_obj hv
    subst hfs
    obtain ⟨sb, hsb⟩ := obj_dictGet_ok fs "spent_by" .null
    have hne : (n == 0) = false := by simp [hnz]
    simp only [List.cons_append]
    cases hsbt : sb.isTruthy with
    | true =>
      obtain ⟨as0, a, has, hai⟩ := hspent sb hsb hsbt
      have hstep : cypherFold (JValue.obj fs :: (rest ++ ys)) s rv =
          cypherFold (rest ++ ys) s (setAdd rv a) := by
        simp [cypherFold, except_bind_ok, hv, hn, hnz, hsb, hsbt, has, hai]
      rw [hstep]
      exact ih hrest s (setAdd rv a)
    | false =>
      have hstep : cypherFold (JValue.obj fs :: (rest ++ ys)) s rv =
          cypherFold (rest ++ ys) s rv := by
        simp [cypherFold, except_bind_ok, hv, hn, hnz, hsb, hsbt]
      rw [hstep]
      exact ih hrest s rv

/-- A zero-value output overwrites `script` with the `data_hex` field. -/
theorem cypherFold_zero_step (o : JValue) (rest : List JValue) (s : JValue) (rv : List JValue)
    (v d : JValue)
    (hv : o.dictGet "value" (.num 1) = .ok v) (h0 : pyIntOf v = .ok 0)
    (hd : o.subscript "data_hex" = .ok d) :
    cypherFold (o :: rest) s rv = cypherFold rest d rv := by
  simp [cypherFold, except_bind_ok, hv, h0, hd]

/-- Synthetic blockchain.info transaction response: a `time`, one input
whose `prev_out.addr` is the signing address, and the given outputs. -/
def infoJson (time sk : JValue) (outs : List JValue) : JValue :=
  .obj [("time", time),
        ("inputs", .arr [.obj [("prev_out", .obj [("addr", sk)])]]),
        ("out", .arr outs)]

/-- Synthetic blockcypher transaction response: a `received` time, one
input whose first `addresses` entry is the signing address, and the
given outputs. -/
def cypherJson (received sk : JValue) (outs : List JValue) : JValue :=
  .obj [("received", received),
        ("inputs", .arr [.obj [("addresses", .arr [sk])]]),
        ("outputs", .arr outs)]

/-- `BlockchainInfoConnector.parse_tx` on a synthetic response reduces to
the output loop followed by the op_return check. -/
theorem info_parse_infoJson (time sk : JValue) (outs : List JValue) :
    BlockchainInfoConnector.parse_tx (infoJson time sk outs) =
      (infoFold outs .null []).bind (fun p =>
        if p.1.isTruthy then .ok ⟨sk, p.1, time, some p.2⟩
        else .error (.invalidTransactionError "transaction response is missing op_return script")) :=
  rfl

/-- `BlockcypherConnector.parse_tx` on a synthetic response reduces to
the output loop followed by the op_return check. -/
theorem cypher_parse_cypherJson (received sk : JValue) (outs : List JValue) :
    BlockcypherConnector.parse_tx (cypherJson received sk outs) =
      (cypherFold outs .null []).bind (fun p =>
        if p.1.isTruthy then .ok ⟨sk, p.1, received, some p.2⟩
        else .error (.invalidTransactionError "transaction response is missing op_return script")) :=
  rfl

/-- Synthetic blockchain.info response with one nonzero output only. -/
def infoCexA : JValue := infoJson (.num 1) (.str "s1") [.obj [("value", .num 5)]]

/-- Same response with a different `time` field. -/
def infoCexB : JValue := infoJson (.num 2) (.str "s1") [.obj [("value", .num 5)]]

/-- C4 counterexample: on a response with no zero-value output the
parse raises `InvalidTransactionError` — the code has no separate
MalformedTransaction class — and the exception does NOT carry the raw
response: two responses that differ (their `time` fields are 1 and 2)
produce the identical exception, whose message is a bare constant. -/
theorem missing_op_return_error_constant :
    BlockchainInfoConnector.parse_tx infoCexA =
      .error (.invalidTransactionError "transaction response is missing op_return script") ∧
    BlockchainInfoConnector.parse_tx infoCexB = BlockchainInfoConnector.parse_tx infoCexA ∧
    infoCexA.subscript "time" = .ok (.num 1) ∧
    infoCexB.subscript "time" = .ok (.num 2) :=
  ⟨rfl, rfl, rfl, rfl⟩

/-- C4 amended: a successful normalize always has truthy (non-empty)
embedded data, for both UTXO-style adapters; and a synthetic response
whose outputs all take the nonzero branch (no zero-value output) makes
normalize raise `InvalidTransactionError` with the constant
missing-op_return message (the raw response is only logged). -/
theorem missing_op_return_raises_and_embedded_truthy :
    (∀ (j : JValue) (td : TransactionData),
      BlockchainInfoConnector.parse_tx j = .ok td → td.script.isTruthy = true) ∧
    (∀ (j : JValue) (td : TransactionData),
      BlockcypherConnector.parse_tx j = .ok td → td.script.isTruthy = true) ∧
    (∀ (time sk : JValue) (outs : List JValue), (∀ o ∈ outs, infoNonzeroOut o) →
      BlockchainInfoConnector.parse_tx (infoJson time sk outs) =
        .error (.invalidTransactionError "transaction response is missing op_return script")) ∧
    (∀ (received sk : JValue) (outs : List JValue), (∀ o ∈ outs, cypherNonzeroOut o) →
      BlockcypherConnector.parse_tx (cypherJson received sk outs) =
        .error (.invalidTransactionError "transaction response is missing op_return script")) := by
  refine ⟨?_, ?_, ?_, ?_⟩
  · intro j td h
    unfold BlockchainInfoConnector.parse_tx at h
    obtain ⟨time, h1, h⟩ := bind_ok_inv h
    obtain ⟨inputs, h2, h⟩ := bind_ok_inv h
    obtain ⟨inp0, h3, h⟩ := bind_ok_inv h
    obtain ⟨prev, h4, h⟩ := bind_ok_inv h
    obtain ⟨sk, h5, h⟩ := bind_ok_inv h
    obtain ⟨outs, h6, h⟩ := bind_ok_inv h
    obtain ⟨outList, h7, h⟩ := bind_ok_inv h
    obtain ⟨p, h8, h⟩ := bind_ok_inv h
    split at h
    · cases h; assumption
    · simp at h
  · intro j td h
    unfold BlockcypherConnector.parse_tx at h
    obtain ⟨time, h1, h⟩ := bind_ok_inv h
    obtain ⟨inputs, h2, h⟩ := bind_ok_inv h
    obtain ⟨inp0, h3, h⟩ := bind_ok_inv h
    obtain ⟨addrs, h4, h⟩ := bind_ok_inv h
    obtain ⟨sk, h5, h⟩ := bind_ok_inv h
    obtain ⟨outs, h6, h⟩ := bind_ok_inv h
    obtain ⟨outList, h7, h⟩ := bind_ok_inv h
    obtain ⟨p, h8, h⟩ := bind_ok_inv h
    split at h
    · cases h; assumption
    · simp at h
  · intro time sk outs h
    rw [info_parse_infoJson]
    obtain ⟨rv2, hfold⟩ := infoFold_skip outs [] h .null []
    rw [List.append_nil] at hfold
    rw [hfold]
    rfl
  · intro received sk outs h
    rw [cypher_parse_cypherJson]
    obtain ⟨rv2, hfold⟩ := cypherFold_skip outs [] h .null []
    rw [List.append_nil] at hfold
    rw [hfold]
    rfl

/-- Witness for the amended C4: a spent nonzero output (blockchain.info
naming), a plain nonzero output (blockcypher naming), and a successful
parse whose embedded data is checked truthy through the theorem. -/
theorem missing_op_return_raises_and_embedded_truthy_witness :
    BlockchainInfoConnector.parse_tx
      (infoJson (.num 5) (.str "a1") [.obj [("value", .num 3), ("spent", .bool true), ("addr", .str "z1")]]) =
      .error (.invalidTransactionError "transaction response is missing op_return script") ∧
    BlockcypherConnector.parse_tx
      (cypherJson (.num 6) (.str "a2") [.obj [("value", .num 4)]]) =
      .error (.invalidTransactionError "transaction response is missing op_return script") ∧
    (⟨.str "a1", .str "abcd", .num 5, some []⟩ : TransactionData).script.isTruthy = true := by
  refine ⟨?_, ?_, ?_⟩
  · refine missing_op_return_raises_and_embedded_truthy.2.2.1 (.num 5) (.str "a1") _ ?_
    intro o ho
    simp only [List.mem_singleton] at ho
    subst ho
    exact ⟨.num 3, 3, rfl, rfl, by decide⟩
  · refine missing_op_return_raises_and_embedded_truthy.2.2.2 (.num 6) (.str "a2") _ ?_
    intro o ho
    simp only [List.mem_singleton] at ho
    subst ho
    refine ⟨⟨.num 4, 4, rfl, rfl, by decide⟩, ?_⟩
    intro sb hsb hsbt
    cases hsb
    simp [JValue.isTruthy] at hsbt
  · exact missing_op_return_raises_and_embedded_truthy.1
      (infoJson (.num 5) (.str "a1") [.obj [("value", .num 0), ("script", .str "6a20abcd")]])
      ⟨.str "a1", .str "abcd", .num 5, some []⟩ rfl

/-- Synthetic blockcypher response whose single output is zero-valued
but carries an empty `data_hex` payload. -/
def cypherEmptyPayload : JValue :=
  cypherJson (.num 7) (.str "s2") [.obj [("value", .num 0), ("data_hex", .str "")]]

/-- Number of outputs whose (defaulted) value converts to zero. -/
def zeroValueOutputCount (outs : List JValue) : Nat :=
  outs.countP (fun o =>
    match (o.dictGet "value" (.num 1)).bind pyIntOf with
    | .ok n => n == 0
    | .error _ => false)

/-- C5 counterexample: a synthetic blockcypher response with exactly one
zero-value output for which normalize does NOT return a record carrying
that output's payload — the payload is empty, so the parse raises
instead. -/
theorem single_zero_output_empty_payload_raises :
    zeroValueOutputCount [.obj [("value", .num 0), ("data_hex", .str "")]] = 1 ∧
    BlockcypherConnector.parse_tx cypherEmptyPayload =
      .error (.invalidTransactionError "transaction response is missing op_return script") :=
  ⟨rfl, rfl⟩

/-- C5 amended: a synthetic UTXO-style response with exactly one
zero-value output whose payload (the script after the four-character
marker for the blockchain.info scheme; the `data_hex` field for the
blockcypher scheme) is non-empty normalizes to a record whose embedded
data is exactly that payload, under either field-naming scheme. -/
theorem single_zero_output_payload_extracted :
    (∀ (time sk : JValue) (pre post : List JValue) (o v sc payload : JValue),
      (∀ x ∈ pre, infoNonzeroOut x) → (∀ x ∈ post, infoNonzeroOut x) →
      o.dictGet "value" (.num 1) = .ok v → pyIntOf v = .ok 0 →
      o.subscript "script" = .ok sc → pySliceFrom sc 4 = .ok payload →
      payload.isTruthy = true →
      ∃ rv, BlockchainInfoConnector.parse_tx (infoJson time sk (pre ++ o :: post)) =
        .ok ⟨sk, payload, time, some rv⟩) ∧
    (∀ (received sk : JValue) (pre post : List JValue) (o v payload : JValue),
      (∀ x ∈ pre, cypherNonzeroOut x) → (∀ x ∈ post, cypherNonzeroOut x) →
      o.dictGet "value" (.num 1) = .ok v → pyIntOf v = .ok 0 →
      o.subscript "data_hex" = .ok payload →
      payload.isTruthy = true →
      ∃ rv, BlockcypherConnector.parse_tx (cypherJson received sk (pre ++ o :: post)) =
        .ok ⟨sk, payload, received, some rv⟩) := by
  constructor
  · intro time sk pre post o v sc payload hpre hpost hv h0 hs hp hT
    rw [info_parse_infoJson]
    obtain ⟨rv1, h1⟩ := infoFold_skip pre (o :: post) hpre .null []
    rw [h1, infoFold_zero_step o post .null rv1 v sc payload hv h0 hs hp]
    obtain ⟨rv2, h2⟩ := infoFold_skip post [] hpost payload rv1
    rw [List.append_nil] at h2
    rw [h2]
    exact ⟨rv2, by simp [infoFold, except_bind_ok, hT]⟩
  · intro received sk pre post o v payload hpre hpost hv h0 hd hT
    rw [cypher_parse_cypherJson]
    obtain ⟨rv1, h1⟩ := cypherFold_skip pre (o :: post) hpre .null []
    rw [h1, cypherFold_zero_step o post .null rv1 v payload hv h0 hd]
    obtain ⟨rv2, h2⟩ := cypherFold_skip post [] hpost payload rv1
    rw [List.append_nil] at h2
    rw [h2]
    exact ⟨rv2, by simp [cypherFold, except_bind_ok, hT]⟩

/-- Witness for the amended C5: one zero-value output between two
nonzero ones, under each field-naming scheme. -/
theorem single_zero_output_payload_extracted_witness :
    BlockchainInfoConnector.parse_tx
      (infoJson (.num 5) (.str "a1")
        ([.obj [("value", .num 2)]] ++
          (.obj [("value", .num 0), ("script", .str "6a20abcd")]) :: [.obj [("value", .num 9)]])) =
      .ok ⟨.str "a1", .str "abcd", .num 5, some []⟩ ∧
    BlockcypherConnector.parse_tx
      (cypherJson (.num 6) (.str "a2")
        ([.obj [("value", .num 2)]] ++
          (.obj [("value", .num 0), ("data_hex", .str "beef")]) :: [.obj [("value", .num 9)]])) =
      .ok ⟨.str "a2", .str "beef", .num 6, some []⟩ := by
  have hinfo : ∃ rv, BlockchainInfoConnector.parse_tx
      (infoJson (.num 5) (.str "a1")
        ([.obj [("value", .num 2)]] ++
          (.obj [("value", .num 0), ("script", .str "6a20abcd")]) :: [.obj [("value", .num 9)]])) =
      .ok ⟨.str "a1", .str "abcd", .num 5, some rv⟩ := by
    refine single_zero_output_payload_extracted.1 (.num 5) (.str "a1") _ _ _ (.num 0)
      (.str "6a20abcd") (.str "abcd") ?_ ?_ rfl rfl rfl rfl rfl
    · intro x hx
      simp only [List.mem_singleton] at hx
      subst hx
      exact ⟨.num 2, 2, rfl, rfl, by decide⟩
    · intro x hx
      simp only [List.mem_singleton] at hx
      subst hx
      exact ⟨.num 9, 9, rfl, rfl, by decide⟩
  have hcyph : ∃ rv, BlockcypherConnector.parse_tx
      (cypherJson (.num 6) (.str "a2")
        ([.obj [("value", .num 2)]] ++
          (.obj [("value", .num 0), ("data_hex", .str "beef")]) :: [.obj [("value", .num 9)]])) =
      .ok ⟨.str "a2", .str "beef", .num 6, some rv⟩ := by
    refine single_zero_output_payload_extracted.2 (.num 6) (.str "a2") _ _ _ (.num 0)
      (.str "beef") ?_ ?_ rfl rfl rfl rfl
    · intro x hx
      simp only [List.mem_singleton] at hx
      subst hx
      refine ⟨⟨.num 2, 2, rfl, rfl, by decide⟩, ?_⟩
      intro sb hsb hsbt
      cases hsb
      simp [JValue.isTruthy] at hsbt
    · intro x hx
      simp only [List.mem_singleton] at hx
      subst hx
      refine ⟨⟨.num 9, 9, rfl, rfl, by decide⟩, ?_⟩
      intro sb hsb hsbt
      cases hsb
      simp [JValue.isTruthy] at hsbt
  obtain ⟨rv1, h1⟩ := hinfo
  obtain ⟨rv2, h2⟩ := hcyph
  have e1 : rv1 = [] := by
    have hc : BlockchainInfoConnector.parse_tx
        (infoJson (.num 5) (.str "a1")
          ([.obj [("value", .num 2)]] ++
            (.obj [("value", .num 0), ("script", .str "6a20abcd")]) :: [.obj [("value", .num 9)]])) =
        .ok ⟨.str "a1", .str "abcd", .num 5, some []⟩ := rfl
    injection h1.symm.trans hc with h
    injection h with ha hb hcc hd
    injection hd
  have e2 : rv2 = [] := by
    have hc : BlockcypherConnector.parse_tx
        (cypherJson (.num 6) (.str "a2")
          ([.obj [("value", .num 2)]] ++
            (.obj [("value", .num 0), ("data_hex", .str "beef")]) :: [.obj [("value", .num 9)]])) =
        .ok ⟨.str "a2", .str "beef", .num 6, some []⟩ := rfl
    injection h2.symm.trans hc with h
    injection h with ha hb hcc hd
    injection hd
  subst e1
  subst e2
  exact ⟨h1, h2⟩

/-- Key extraction hands the collected `revoked_assertions` through
unchanged: whatever shape succeeds, the result's `revoked_assertions`
is exactly the collection passed in (in the legacy branch that returns
a fresh empty collection, the passed one was itself empty). -/
theorem parseIssuerKeys_ra (j : JValue) (ra : List JValue) (info : IssuerInfo)
    (h : parseIssuerKeys j ra = .ok info) : info.revoked_assertions = ra := by
  unfold parseIssuerKeys at h
  obtain ⟨hasCtx, h1, h⟩ := bind_ok_inv h
  split at h
  · obtain ⟨hasPk, h2, h⟩ := bind_ok_inv h
    split at h
    · obtain ⟨pks, h3, h⟩ := bind_ok_inv h
      obtain ⟨lst, h4, h⟩ := bind_ok_inv h
      obtain ⟨keys, h5, h⟩ := bind_ok_inv h
      cases h
      rfl
    · obtain ⟨hasPks, h3, h⟩ := bind_ok_inv h
      split at h
      · obtain ⟨pks, h4, h⟩ := bind_ok_inv h
        obtain ⟨lst, h5, h⟩ := bind_ok_inv h
        obtain ⟨keys, h6, h⟩ := bind_ok_inv h
        cases h
        rfl
      · cases h
        rfl
  · obtain ⟨iks, h2, h⟩ := bind_ok_inv h
    obtain ⟨ik0, h3, h⟩ := bind_ok_inv h
    obtain ⟨kv, h4, h⟩ := bind_ok_inv h
    split at h
    next hempty =>
      obtain ⟨rks, h5, h⟩ := bind_ok_inv h
      obtain ⟨rk0, h6, h⟩ := bind_ok_inv h
      obtain ⟨rkv, h7, h⟩ := bind_ok_inv h
      cases h
      exact (List.isEmpty_iff.mp hempty).symm
    next hempty =>
      cases h
      rfl

/-- Network serving an issuer profile that has an `@context` marker but
neither a `publicKey` nor a `publicKeys` collection. -/
def netC6 : Net := fun u =>
  if u == "https://issuer.example/profile" then
    (200, .obj [("@context", .str "https://w3id.org/openbadges/v2")])
  else (404, .null)

/-- A V1.2 credential pointing at that profile. -/
def cmC6 : CertificateModel := ⟨"https://issuer.example/profile", .V1_2, .null⟩

/-- C6 counterexample: resolving an issuer profile that has `@context`
but neither `publicKey` nor `publicKeys` does NOT fail — it returns a
successful Issuer Authority with an empty key list. -/
theorem context_profile_zero_keys_empty_success_cex :
    get_issuer_info netC6 cmC6 = .ok ⟨[], [], []⟩ := rfl

/-- C6 amended: for every issuer profile with an `@context` marker but
neither key collection, key extraction succeeds with an empty key list
(no zero-key check exists), handing the collected revoked assertions
through. -/
theorem context_profile_zero_keys_empty_success
    (fs : List (String × JValue)) (ra : List JValue)
    (h1 : pyContains (.obj fs) "@context" = .ok true)
    (h2 : pyContains (.obj fs) "publicKey" = .ok false)
    (h3 : pyContains (.obj fs) "publicKeys" = .ok false) :
    parseIssuerKeys (.obj fs) ra = .ok ⟨[], [], ra⟩ := by
  unfold parseIssuerKeys
  simp [h1, h2, h3, except_bind_ok]

/-- Witness for the amended C6. -/
theorem context_profile_zero_keys_empty_success_witness :
    parseIssuerKeys (.obj [("@context", .str "ctx")]) [] = .ok ⟨[], [], []⟩ :=
  context_profile_zero_keys_empty_success [("@context", .str "ctx")] [] rfl rfl rfl

/-- C7: when the credential is V2/V2-alpha and the revocation-list URL
answers with a non-success status, resolution does not raise because of
that fetch: the collected set is empty, resolution reduces to plain key
extraction with an empty collection, and any resulting Issuer Authority
has an empty `revoked_assertions`. -/
theorem revocation_fetch_failure_degrades (net : Net) (cm : CertificateModel)
    (profile badge issuer : JValue) (rurl : String)
    (hv : v2ish cm.version = true)
    (hb : cm.certificate_json.subscript "badge" = .ok badge)
    (hi : badge.subscript "issuer" = .ok issuer)
    (hc : pyContains issuer "revocationList" = .ok true)
    (hr : issuer.subscript "revocationList" = .ok (.str rurl))
    (hf : (net rurl).1 ≠ 200)
    (hprof : net cm.issuer_id = (200, profile))
    (ht : profile.isTruthy = true) :
    computeRevokedAssertions net cm = .ok [] ∧
    get_issuer_info net cm = parseIssuerKeys profile [] ∧
    (∀ info, get_issuer_info net cm = .ok info → info.revoked_assertions = []) := by
  have hcra : computeRevokedAssertions net cm = .ok [] := by
    unfold computeRevokedAssertions
    simp [hv, hb, hi, hc, hr, except_bind_ok, asRequestUrl, get_remote_json, hf]
  have hg : get_remote_json net cm.issuer_id = some profile := by
    simp [get_remote_json, hprof]
  have h2 : get_issuer_info net cm = parseIssuerKeys profile [] := by
    unfold get_issuer_info
    rw [hg]
    simp [ht, hcra, except_bind_ok]
  refine ⟨hcra, h2, ?_⟩
  intro info h
  rw [h2] at h
  exact parseIssuerKeys_ra profile [] info h

/-- The issuer profile document served in the C7 witness. -/
def profileC7 : JValue :=
  .obj [("@context", .str "ctx"),
        ("publicKey", .arr [.obj [("id", .str "ecdsa-koblitz-pubkey:KEY1")]])]

/-- The credential JSON of the C7 witness, carrying a revocationList URL. -/
def certJsonC7 : JValue :=
  .obj [("badge", .obj [("issuer", .obj [("revocationList", .str "https://rev.example/list")])])]

/-- The V2 certificate model of the C7 witness. -/
def cmC7 : CertificateModel := ⟨"https://issuer.example/p7", .V2, certJsonC7⟩

/-- Network serving the issuer profile but failing the revocation list
with status 500. -/
def netC7 : Net := fun u =>
  if u == "https://issuer.example/p7" then (200, profileC7) else (500, .null)

/-- Witness for C7 at a concrete failing revocation-list fetch. -/
theorem revocation_fetch_failure_degrades_witness :
    computeRevokedAssertions netC7 cmC7 = .ok [] ∧
    get_issuer_info netC7 cmC7 = .ok ⟨[⟨.str "KEY1", .null, .null, .null⟩], [], []⟩ ∧
    (⟨[⟨.str "KEY1", .null, .null, .null⟩], [], []⟩ : IssuerInfo).revoked_assertions = [] := by
  obtain ⟨h1, h2, h3⟩ := revocation_fetch_failure_degrades netC7 cmC7 profileC7
    (.obj [("issuer", .obj [("revocationList", .str "https://rev.example/list")])])
    (.obj [("revocationList", .str "https://rev.example/list")])
    "https://rev.example/list" rfl rfl rfl rfl rfl (by decide) rfl rfl
  exact ⟨h1, rfl, h3 _ rfl⟩

/-- C8: a legacy V1 issuer profile (no `@context`) yields exactly one
key, taken from `issuerKeys[0].key`; when revoked assertions were
already collected (non-empty), the result is keys-only with those
assertions and an empty `revocation_keys`; otherwise exactly one entry
of `revocationKeys` is additionally extracted into `revocation_keys`. -/
theorem v1_profile_key_extraction (j : JValue) (ra : List JValue)
    (iks ik0 kv : JValue)
    (hctx : pyContains j "@context" = .ok false)
    (hik : j.subscript "issuerKeys" = .ok iks)
    (hik0 : iks.index 0 = .ok ik0)
    (hkv : ik0.subscript "key" = .ok kv) :
    (ra.isEmpty = false →
      parseIssuerKeys j ra = .ok ⟨[⟨kv, .null, .null, .null⟩], [], ra⟩) ∧
    (∀ rks rk0 rkv, ra = [] → j.subscript "revocationKeys" = .ok rks →
      rks.index 0 = .ok rk0 → rk0.subscript "key" = .ok rkv →
      parseIssuerKeys j ra = .ok ⟨[⟨kv, .null, .null, .null⟩], [⟨rkv, .null, .null, .null⟩], []⟩) := by
  constructor
  · intro hra
    unfold parseIssuerKeys
    simp [hctx, hik, hik0, hkv, hra, except_bind_ok]
  · intro rks rk0 rkv hra hrks hrk0 hrkv
    subst hra
    unfold parseIssuerKeys
    simp [hctx, hik, hik0, hkv, hrks, hrk0, hrkv, except_bind_ok]

/-- Legacy V1 issuer profile used by the C8 witness. -/
def v1Profile : JValue :=
  .obj [("issuerKeys", .arr [.obj [("key", .str "V1KEY")]]),
        ("revocationKeys", .arr [.obj [("key", .str "RVKEY")]])]

/-- Witness for C8: the same V1 profile resolved once with previously
collected revoked assertions (keys-only result) and once without (a
`revocation_keys` entry is extracted too). -/
theorem v1_profile_key_extraction_witness :
    parseIssuerKeys v1Profile [.str "assertion1"] =
      .ok ⟨[⟨.str "V1KEY", .null, .null, .null⟩], [], [.str "assertion1"]⟩ ∧
    parseIssuerKeys v1Profile [] =
      .ok ⟨[⟨.str "V1KEY", .null, .null, .null⟩], [⟨.str "RVKEY", .null, .null, .null⟩], []⟩ := by
  constructor
  · exact (v1_profile_key_extraction v1Profile [.str "assertion1"] _ _ _ rfl rfl rfl rfl).1 rfl
  · exact (v1_profile_key_extraction v1Profile [] _ _ _ rfl rfl rfl rfl).2 _ _ _ rfl rfl rfl rfl
